import Mathlib

/-!
Verification of the edge API gateway request pipeline (src/api-gateway/server.js)
against its design specification. The stateful middlewares are embedded as pure
state-passing functions; external collaborators (the key-value store, the JWT
library, the backend services, the event broker) appear as explicit parameters
or oracle functions, with their failure modes made explicit via Except / Bool
flags. Machine behaviour of the third-party middleware libraries is embedded
with the configuration values taken verbatim from the source.
-/

namespace Gateway

/-! ## Rate Limiter and Throttle (server.js lines 62 to 114) -/

/-- Result record returned by the custom store increment, mirroring the object
with field totalHits built at server.js line 74 and line 77. -/
structure IncrResult where
  totalHits : Nat
deriving DecidableEq, Repr

/-- State of one per-client-address counter key in the shared store: its current
value (0 meaning the key is absent) and the expiry in seconds set on it, if any. -/
structure CounterState where
  count : Nat
  expirySec : Option Nat
deriving DecidableEq, Repr

/-- Embeds RedisStore.increment (server.js lines 68 to 79): on a healthy store,
atomically increment the key and, exactly when the post-increment value is 1,
set a 900 second (15 minute) expiry on it; on a store error the catch block
returns totalHits 1 and the counter is untouched. -/
def RedisStore.increment (s : CounterState) : Bool → IncrResult × CounterState
  | true =>
    (⟨s.count + 1⟩,
     ⟨s.count + 1, if s.count + 1 = 1 then some 900 else s.expirySec⟩)
  | false => (⟨1⟩, s)

/-- Hard cap configured at server.js line 101: max 100 requests per window. -/
def limiterMax : Nat := 100

/-- Soft cap configured at server.js line 109: delay after 50 requests. -/
def delayAfterCap : Nat := 50

/-- Base delay configured at server.js line 110: 500 milliseconds per request
above the soft cap. -/
def delayMsStep : Nat := 500

/-- Delay in milliseconds applied by the slow-down middleware (server.js lines
107 to 111) given the post-increment hit count: (hits - delayAfter) * delayMs
once hits exceed delayAfter, else zero. -/
def speedLimiterDelay (hits : Nat) : Nat :=
  if delayAfterCap < hits then (hits - delayAfterCap) * delayMsStep else 0

/-- Outcome of the rate-limiting stage for one request. -/
inductive RateOutcome where
  | allow : RateOutcome
  | delay : Nat → RateOutcome
  | reject : RateOutcome
deriving DecidableEq, Repr

/-- HTTP status surfaced for each rate outcome: the rate-limit middleware
responds 429 on rejection; otherwise the request proceeds down the pipeline. -/
def outcomeHttpStatus : RateOutcome → Option Nat
  | RateOutcome.reject => some 429
  | _ => none

/-- Delay in milliseconds carried by an outcome (zero when not delayed). -/
def delayOf : RateOutcome → Nat
  | RateOutcome.delay d => d
  | _ => 0

/-- Combined per-client state of the two rate-limiting middlewares: the hard-cap
limiter counter kept in the shared store (server.js line 104) and the slow-down
middleware counter kept in its own in-process store (server.js line 107). -/
structure RateState where
  limiter : CounterState
  speed : Nat
deriving DecidableEq, Repr

/-- Embeds one request passing the two middlewares installed at server.js lines
113 to 114: the hard-cap limiter increments its counter through RedisStore (the
storeOk flag telling whether the store call succeeds) and rejects with 429 when
the post-increment hit count exceeds max; otherwise the slow-down middleware
increments its own counter and imposes its delay. The limiter counter is never
decremented on rejection (the skip options of the library are not configured). -/
def rateStage (storeOk : Bool) (s : RateState) : RateOutcome × RateState :=
  let r := RedisStore.increment s.limiter storeOk
  if limiterMax < r.1.totalHits then (RateOutcome.reject, ⟨r.2, s.speed⟩)
  else
    let sc := s.speed + 1
    let d := speedLimiterDelay sc
    (if d = 0 then RateOutcome.allow else RateOutcome.delay d, ⟨r.2, sc⟩)

/-- State at the start of a fresh 15-minute window: both counters absent. -/
def initState : RateState := ⟨⟨0, none⟩, 0⟩

/-- State after n requests of a single client in one window, all store calls
succeeding. -/
def runWindow : Nat → RateState
  | 0 => initState
  | n + 1 => (rateStage true (runWindow n)).2

/-- Outcome received by the i-th request (1-based) of a single client within
one window, all store calls succeeding. -/
def requestOutcome (i : Nat) : RateOutcome :=
  (rateStage true (runWindow (i - 1))).1

theorem runWindow_count (n : Nat) : (runWindow n).limiter.count = n := by
  induction n with
  | zero => rfl
  | succ k ih =>
    unfold runWindow rateStage RedisStore.increment
    dsimp only
    split <;> simp [ih]

theorem runWindow_speed (n : Nat) : (runWindow n).speed = min n limiterMax := by
  induction n with
  | zero => rfl
  | succ k ih =>
    unfold runWindow rateStage RedisStore.increment
    dsimp only
    have hc := runWindow_count k
    split
    · rename_i h
      rw [hc] at h
      rw [ih]
      simp only [limiterMax] at h ⊢
      omega
    · rename_i h
      rw [hc] at h
      rw [ih]
      simp only [limiterMax] at h ⊢
      omega

theorem runWindow_expiry (n : Nat) (h : 1 ≤ n) :
    (runWindow n).limiter.expirySec = some 900 := by
  induction n with
  | zero => omega
  | succ k ih =>
    unfold runWindow rateStage RedisStore.increment
    dsimp only
    have hc := runWindow_count k
    rcases Nat.eq_zero_or_pos k with hk | hk
    · subst hk
      split <;> simp [runWindow, initState]
    · have he := ih hk
      split <;> simp [hc, Nat.succ_ne_zero, he]

theorem requestOutcome_closed (i : Nat) (h : 1 ≤ i) :
    requestOutcome i =
      if limiterMax < i then RateOutcome.reject
      else if delayAfterCap < i then
        RateOutcome.delay ((i - delayAfterCap) * delayMsStep)
      else RateOutcome.allow := by
  cases i with
  | zero => omega
  | succ k =>
    unfold requestOutcome rateStage RedisStore.increment
    dsimp only
    simp only [Nat.add_sub_cancel]
    rw [runWindow_count k, runWindow_speed k]
    simp only [speedLimiterDelay, limiterMax, delayAfterCap, delayMsStep]
    by_cases h1 : 100 < k + 1
    · simp [h1]
    · simp only [if_neg h1]
      have hmin : min k 100 = k := by omega
      rw [hmin]
      by_cases h2 : 50 < k + 1
      · have hd : (k + 1 - 50) * 500 ≠ 0 := by
          have : 1 ≤ k + 1 - 50 := by omega
          omega
        simp [h2, hd]
        omega
      · simp [h2]

/-- C1: for every client address, each of the first 100 requests within a single
15-minute rate window receives Allow or Delay (the request proceeds), the 101st
and every later request in the same window receives Reject surfaced as a 429
rate-limit error, and the counter is not rolled back on rejection (it equals the
number of requests seen, and carries the 900 second window expiry). -/
theorem rate_hard_cap_spec (i : Nat) (h : 1 ≤ i) :
    (i ≤ 100 →
      requestOutcome i = RateOutcome.allow ∨
        ∃ d, requestOutcome i = RateOutcome.delay d) ∧
    (101 ≤ i →
      requestOutcome i = RateOutcome.reject ∧
        outcomeHttpStatus (requestOutcome i) = some 429) ∧
    (runWindow i).limiter.count = i ∧
    (runWindow i).limiter.expirySec = some 900 := by
  have hro := requestOutcome_closed i h
  refine ⟨?_, ?_, runWindow_count i, runWindow_expiry i h⟩
  · intro hle
    rw [hro]
    simp only [limiterMax, delayAfterCap, delayMsStep]
    by_cases h2 : 50 < i
    · right
      refine ⟨(i - 50) * 500, ?_⟩
      rw [if_neg (by omega), if_pos h2]
    · left
      rw [if_neg (by omega), if_neg h2]
  · intro hge
    rw [hro, if_pos (by simp only [limiterMax]; omega)]
    exact ⟨rfl, rfl⟩

theorem rate_hard_cap_spec_witness :
    (requestOutcome 100 = RateOutcome.allow ∨
      ∃ d, requestOutcome 100 = RateOutcome.delay d) ∧
    requestOutcome 101 = RateOutcome.reject ∧
    (runWindow 101).limiter.count = 101 :=
  ⟨(rate_hard_cap_spec 100 (by omega)).1 (by omega),
   ((rate_hard_cap_spec 101 (by omega)).2.1 (by omega)).1,
   (rate_hard_cap_spec 101 (by omega)).2.2.1⟩

/-- C2: for every client address issuing between 51 and 100 requests in one
window, each request beyond the 50th is throttled with a non-zero delay that is
strictly increasing with the in-window request count, namely the n-th request
for n above 50 is delayed by (n - 50) * 500 milliseconds. -/
theorem throttle_linear_delay (n : Nat) (h1 : 51 ≤ n) (h2 : n ≤ 100) :
    requestOutcome n = RateOutcome.delay ((n - 50) * 500) ∧
    0 < (n - 50) * 500 ∧
    (n + 1 ≤ 100 →
      delayOf (requestOutcome n) < delayOf (requestOutcome (n + 1))) := by
  have key : ∀ m, 51 ≤ m → m ≤ 100 →
      requestOutcome m = RateOutcome.delay ((m - 50) * 500) := by
    intro m hm1 hm2
    rw [requestOutcome_closed m (by omega)]
    simp only [limiterMax, delayAfterCap, delayMsStep]
    rw [if_neg (by omega), if_pos (by omega)]
  refine ⟨key n h1 h2, by omega, ?_⟩
  intro h3
  rw [key n h1 h2, key (n + 1) (by omega) h3]
  simp only [delayOf]
  omega

theorem throttle_linear_delay_witness :
    requestOutcome 51 = RateOutcome.delay ((51 - 50) * 500) ∧
    delayOf (requestOutcome 51) < delayOf (requestOutcome 52) :=
  ⟨(throttle_linear_delay 51 (by omega) (by omega)).1,
   (throttle_linear_delay 51 (by omega) (by omega)).2.2 (by omega)⟩

/-- C6: a failure of the rate-counter store operation makes the increment report
a hit count of 1 with the stored counter untouched, so the hard-cap limiter
treats the request as the first of a window and never rejects; the outcome of
the whole rate stage under a store failure coincides with the outcome for a
fresh counter, hence a counter-store error never produces Reject, and any Delay
comes only from the separate in-process throttle counter, never from the error
(at the start of a window the outcome is exactly Allow). -/
theorem counter_store_fail_open (s : CounterState) (rs : RateState) :
    RedisStore.increment s false = (⟨1⟩, s) ∧
    (rateStage false rs).1 ≠ RateOutcome.reject ∧
    (rateStage false rs).1 = (rateStage true ⟨⟨0, none⟩, rs.speed⟩).1 ∧
    (rateStage false ⟨s, 0⟩).1 = RateOutcome.allow := by
  refine ⟨rfl, ?_, ?_, ?_⟩
  · unfold rateStage RedisStore.increment
    dsimp only
    simp only [limiterMax]
    rw [if_neg (by omega)]
    split <;> simp
  · unfold rateStage RedisStore.increment
    dsimp only
    simp [limiterMax]
  · unfold rateStage RedisStore.increment
    dsimp only
    simp only [limiterMax]
    rw [if_neg (by omega)]
    simp [speedLimiterDelay, delayAfterCap]

theorem counter_store_fail_open_witness :
    RedisStore.increment ⟨7, some 900⟩ false = (⟨1⟩, ⟨7, some 900⟩) ∧
    (rateStage false ⟨⟨200, some 900⟩, 60⟩).1 ≠ RateOutcome.reject ∧
    (rateStage false ⟨⟨200, some 900⟩, 0⟩).1 = RateOutcome.allow :=
  ⟨(counter_store_fail_open ⟨7, some 900⟩ ⟨⟨200, some 900⟩, 60⟩).1,
   (counter_store_fail_open ⟨7, some 900⟩ ⟨⟨200, some 900⟩, 60⟩).2.1,
   (counter_store_fail_open ⟨200, some 900⟩ ⟨⟨200, some 900⟩, 60⟩).2.2.2⟩

/-! ## Token and Identity Cache (server.js lines 116 to 148) -/

/-- Decoded claims carried by a verified bearer token, abstracted to the subject
identifier the gateway actually reads (decoded.userId at server.js lines 135,
258 and 269); the remaining claims play no role in the gateway logic. -/
structure Identity where
  userId : String
deriving DecidableEq, Repr

/-- Outcome of the token verification middleware. -/
inductive VerifyResult where
  | noToken : VerifyResult
  | revoked : VerifyResult
  | invalid : VerifyResult
  | success : Identity → VerifyResult
deriving DecidableEq, Repr

/-- HTTP status surfaced for each verification outcome: every failure branch of
verifyToken responds 401 (server.js lines 122, 128, 146); on success the request
proceeds to the next middleware. -/
def verifyStatus : VerifyResult → Option Nat
  | VerifyResult.success _ => none
  | _ => some 401

/-- Results of the three shared-store calls made by verifyToken, each either a
value or a thrown store error: the read of the token revocation record (line
126), the read of the identity cache for the subject (line 136), and the
set-with-TTL populating it (line 140). The cache holds the serialized decoded
identity; serialization is abstracted by storing the identity itself. -/
structure StoreOps where
  getTokenRecord : Except Unit (Option String)
  getUserRecord : Except Unit (Option Identity)
  setUserRecord : Except Unit Unit

/-- Trace of one run of the verification middleware: its outcome and the
identity-cache write it performed, if any (key, TTL seconds, value). -/
structure VerifyTrace where
  result : VerifyResult
  cacheWrite : Option (String × Nat × Identity)
deriving DecidableEq, Repr

/-- Embeds verifyToken (server.js lines 117 to 148). The bearer token is the
header value after the split (none when absent); jwtVerify is the cryptographic
verification oracle (none when jwt.verify throws on a bad signature or expiry).
Control flow follows the source: missing token responds 401; a revocation
record equal to the string blacklisted responds 401 before any cryptographic
check; then jwt.verify runs; then the identity cache is read and, on a miss,
written with a 3600 second TTL. Every thrown store error lands in the single
catch block of the function, which responds 401 — including an error thrown by
the cache-population write. -/
def verifyToken (token : Option String) (jwtVerify : String → Option Identity)
    (ops : StoreOps) : VerifyTrace :=
  match token with
  | none => ⟨VerifyResult.noToken, none⟩
  | some _ =>
    match ops.getTokenRecord with
    | Except.error _ => ⟨VerifyResult.invalid, none⟩
    | Except.ok rec =>
      if rec = some "blacklisted" then ⟨VerifyResult.revoked, none⟩
      else
        match token with
        | none => ⟨VerifyResult.invalid, none⟩
        | some tok =>
          match jwtVerify tok with
          | none => ⟨VerifyResult.invalid, none⟩
          | some decoded =>
            match ops.getUserRecord with
            | Except.error _ => ⟨VerifyResult.invalid, none⟩
            | Except.ok (some _) => ⟨VerifyResult.success decoded, none⟩
            | Except.ok none =>
              match ops.setUserRecord with
              | Except.error _ => ⟨VerifyResult.invalid, none⟩
              | Except.ok _ =>
                ⟨VerifyResult.success decoded,
                 some ("user:" ++ decoded.userId, 3600, decoded)⟩

/-- C3: for every request bearing a token whose revocation record is present and
marked revoked in the shared cache store, token validation fails as Revoked with
status 401, independently of the cryptographic oracle (so no verification
attempt can change the outcome, even for a cryptographically valid token) and
independently of any valid identity previously cached for the subject. -/
theorem revoked_token_rejected (tok : String)
    (jv jv2 : String → Option Identity) (ops : StoreOps)
    (h : ops.getTokenRecord = Except.ok (some "blacklisted")) :
    verifyToken (some tok) jv ops = ⟨VerifyResult.revoked, none⟩ ∧
    verifyStatus VerifyResult.revoked = some 401 ∧
    verifyToken (some tok) jv ops = verifyToken (some tok) jv2 ops := by
  unfold verifyToken
  rw [h]
  simp [verifyStatus]

theorem revoked_token_rejected_witness :
    verifyToken (some "tokA") (fun _ => some ⟨"alice"⟩)
        ⟨Except.ok (some "blacklisted"), Except.ok (some ⟨"alice"⟩), Except.ok ()⟩
      = ⟨VerifyResult.revoked, none⟩ :=
  (revoked_token_rejected "tokA" (fun _ => some ⟨"alice"⟩) (fun _ => none)
    ⟨Except.ok (some "blacklisted"), Except.ok (some ⟨"alice"⟩), Except.ok ()⟩
    rfl).1

/-- C4: for every request whose token passes the revocation check, cryptographic
verification runs and alone determines the outcome: with the identity-cache
calls succeeding, the result is the same for any two cache contents; a token the
oracle rejects yields the invalid outcome (status 401) whatever identity is
cached for its subject; a token the oracle accepts resolves exactly to the
decoded identity, so the cache is written by validation but never read to
produce the result. -/
theorem verification_determines_outcome (tok : String)
    (jv : String → Option Identity) (rec : Option String)
    (hrec : rec ≠ some "blacklisted") (u1 u2 : Option Identity) :
    ((verifyToken (some tok) jv ⟨Except.ok rec, Except.ok u1, Except.ok ()⟩).result
      = (verifyToken (some tok) jv ⟨Except.ok rec, Except.ok u2, Except.ok ()⟩).result) ∧
    (jv tok = none →
      (verifyToken (some tok) jv ⟨Except.ok rec, Except.ok u1, Except.ok ()⟩).result
        = VerifyResult.invalid ∧
      verifyStatus VerifyResult.invalid = some 401) ∧
    (∀ d, jv tok = some d →
      (verifyToken (some tok) jv ⟨Except.ok rec, Except.ok u1, Except.ok ()⟩).result
        = VerifyResult.success d) := by
  unfold verifyToken
  simp only [if_neg hrec]
  refine ⟨?_, ?_, ?_⟩
  · cases hj : jv tok <;> cases u1 <;> cases u2 <;> simp
  · intro hj
    rw [hj]
    exact ⟨by cases u1 <;> simp, rfl⟩
  · intro d hj
    rw [hj]
    cases u1 <;> simp

theorem verification_determines_outcome_witness :
    ((verifyToken (some "tokB") (fun _ => none)
        ⟨Except.ok none, Except.ok (some ⟨"bob"⟩), Except.ok ()⟩).result
      = (verifyToken (some "tokB") (fun _ => none)
        ⟨Except.ok none, Except.ok none, Except.ok ()⟩).result) ∧
    (verifyToken (some "tokB") (fun _ => none)
        ⟨Except.ok none, Except.ok (some ⟨"bob"⟩), Except.ok ()⟩).result
      = VerifyResult.invalid :=
  ⟨(verification_determines_outcome "tokB" (fun _ => none) none (by simp)
      (some ⟨"bob"⟩) none).1,
   ((verification_determines_outcome "tokB" (fun _ => none) none (by simp)
      (some ⟨"bob"⟩) none).2.1 rfl).1⟩

/-- C5: the specification requires the identity-cache population write to be
best-effort, but in the code the set-with-TTL call sits inside the same try
block as the cryptographic check, so a thrown write error reaches the catch and
the request is rejected 401 with the message for an invalid token; the same
request with a healthy store succeeds with the verified identity. -/
theorem cache_write_failure_fails_request :
    verifyToken (some "tokC") (fun _ => some ⟨"carol"⟩)
        ⟨Except.ok none, Except.ok none, Except.error ()⟩
      = ⟨VerifyResult.invalid, none⟩ ∧
    verifyStatus VerifyResult.invalid = some 401 ∧
    verifyToken (some "tokC") (fun _ => some ⟨"carol"⟩)
        ⟨Except.ok none, Except.ok none, Except.ok ()⟩
      = ⟨VerifyResult.success ⟨"carol"⟩, some ("user:carol", 3600, ⟨"carol"⟩)⟩ := by
  refine ⟨rfl, rfl, rfl⟩

/-! ## Response Cache (server.js lines 150 to 176) -/

/-- JavaScript logical-or on a possibly absent string against a default: an
absent or empty (falsy) value selects the default. -/
def jsOr (a : Option String) (dflt : String) : String :=
  match a with
  | some s => if s = "" then dflt else s
  | none => dflt

/-- JavaScript logical-or of two possibly absent strings: an absent or empty
first operand selects the second. -/
def jsOrOpt (a b : Option String) : Option String :=
  match a with
  | some s => if s = "" then b else some s
  | none => b

/-- Request fields read by the cache middleware: method, the original request
URL, and the identity resolved by the verification middleware, if any. -/
structure CacheReq where
  method : String
  originalUrl : String
  user : Option Identity
deriving DecidableEq, Repr

/-- Embeds the cache-key computation at server.js line 156: the literal cache
marker, the original request URL, and the subject of the resolved identity, the
or-default falling back to the anonymous marker. -/
def cacheKey (req : CacheReq) : String :=
  "cache:" ++ req.originalUrl ++ ":" ++ jsOr (req.user.map Identity.userId) "anonymous"

/-- Observable steps of the read path through the cache middleware and the
proxy dispatcher, in execution order. The Bool on cacheSet records whether the
fire-and-forget store write succeeded. -/
inductive GatewayAction where
  | cacheGet : String → GatewayAction
  | proxyToBackend : GatewayAction
  | cacheSet : String → Nat → String → Bool → GatewayAction
  | sendToClient : String → GatewayAction
deriving DecidableEq, Repr

/-- Embeds the patched res.json installed at server.js lines 164 to 170: were
it ever invoked with a response body, it would issue the 300 second
set-with-TTL write of that body under the captured cache key (the Bool
recording whether that fire-and-forget write succeeds) and then send the body
through the original json function. On the proxied files route this function is
dead code: the proxy below never invokes res.json. -/
def patchedResJson (key : String) (setExOk : Bool) (data : String) : List GatewayAction :=
  [GatewayAction.cacheSet key 300 data setExOk, GatewayAction.sendToClient data]

/-- Embeds cacheMiddleware (server.js lines 151 to 176) composed with the file
proxy dispatcher it guards on the files route (server.js line 280), as the
ordered list of observable steps for one request. A non-GET request goes
straight to next() without touching the cache. For a GET request the key is
read: a thrown store error falls to the catch and calls next() (fail open); a
hit returns the cached body at once without calling the backend; a miss patches
res.json and calls next() — but the file proxy is createProxyMiddleware without
the selfHandleResponse option (server.js lines 246 to 251), so it pipes the
upstream response straight to the raw response object without ever invoking the
patched res.json: the upstream body is streamed to the client and no cache
write occurs. -/
def filesGetPipeline (req : CacheReq) (store : String → Except Unit (Option String))
    (backendBody : String) : List GatewayAction :=
  if req.method = "GET" then
    match store (cacheKey req) with
    | Except.error _ =>
      [GatewayAction.cacheGet (cacheKey req), GatewayAction.proxyToBackend,
       GatewayAction.sendToClient backendBody]
    | Except.ok (some cached) =>
      [GatewayAction.cacheGet (cacheKey req), GatewayAction.sendToClient cached]
    | Except.ok none =>
      [GatewayAction.cacheGet (cacheKey req), GatewayAction.proxyToBackend,
       GatewayAction.sendToClient backendBody]
  else [GatewayAction.proxyToBackend, GatewayAction.sendToClient backendBody]

/-- C7: the response cache applies only to GET requests — a non-GET request
bypasses it entirely (no cache read and no cache write occur); the cache key is
the original request URL plus the resolved identity subject, or the anonymous
marker when there is no identity; and on a hit the cached body is sent verbatim
with the proxy dispatcher never invoked. -/
theorem response_cache_contract (req : CacheReq)
    (store : String → Except Unit (Option String))
    (backendBody cachedBody : String) :
    (req.method ≠ "GET" →
      filesGetPipeline req store backendBody
        = [GatewayAction.proxyToBackend, GatewayAction.sendToClient backendBody]) ∧
    (req.user = none →
      cacheKey req = "cache:" ++ req.originalUrl ++ ":" ++ "anonymous") ∧
    (∀ u, req.user = some u → u.userId ≠ "" →
      cacheKey req = "cache:" ++ req.originalUrl ++ ":" ++ u.userId) ∧
    (req.method = "GET" → store (cacheKey req) = Except.ok (some cachedBody) →
      filesGetPipeline req store backendBody
          = [GatewayAction.cacheGet (cacheKey req),
             GatewayAction.sendToClient cachedBody] ∧
        GatewayAction.proxyToBackend ∉ filesGetPipeline req store backendBody) := by
  refine ⟨?_, ?_, ?_, ?_⟩
  · intro hm
    unfold filesGetPipeline
    rw [if_neg hm]
  · intro hu
    simp [cacheKey, jsOr, hu]
  · intro u hu hne
    unfold cacheKey jsOr
    rw [hu]
    simp [hne]
  · intro hm hs
    unfold filesGetPipeline
    rw [if_pos hm, hs]
    simp

theorem response_cache_contract_witness :
    (filesGetPipeline ⟨"POST", "/api/files/upload", none⟩ (fun _ => Except.ok none)
        "B"
      = [GatewayAction.proxyToBackend, GatewayAction.sendToClient "B"]) ∧
    cacheKey ⟨"GET", "/api/files", none⟩ = "cache:" ++ "/api/files" ++ ":" ++ "anonymous" ∧
    cacheKey ⟨"GET", "/api/files", some ⟨"alice"⟩⟩
      = "cache:" ++ "/api/files" ++ ":" ++ "alice" ∧
    (filesGetPipeline ⟨"GET", "/api/files", none⟩
        (fun _ => Except.ok (some "CACHED")) "B"
      = [GatewayAction.cacheGet (cacheKey ⟨"GET", "/api/files", none⟩),
         GatewayAction.sendToClient "CACHED"]) :=
  ⟨(response_cache_contract ⟨"POST", "/api/files/upload", none⟩
      (fun _ => Except.ok none) "B" "C").1 (by decide),
   (response_cache_contract ⟨"GET", "/api/files", none⟩
      (fun _ => Except.ok none) "B" "C").2.1 rfl,
   (response_cache_contract ⟨"GET", "/api/files", some ⟨"alice"⟩⟩
      (fun _ => Except.ok none) "B" "C").2.2.1 ⟨"alice"⟩ rfl (by decide),
   ((response_cache_contract ⟨"GET", "/api/files", none⟩
      (fun _ => Except.ok (some "CACHED")) "B" "CACHED").2.2.2 rfl rfl).1⟩

/-- C8: the specification requires that on a GET cache miss the successful
backend body be written under the request cache key with a 300 second TTL
before the response is returned, but in the code the write lives only inside
the patched res.json, which the file proxy never invokes (it streams the
upstream response directly, having no selfHandleResponse option), so on a
proxied GET miss the trace evaluates to cache read, backend call and send with
no cacheSet anywhere — while the dead patched res.json, had it run, would have
issued exactly the write-then-send the claim describes. -/
theorem proxied_miss_no_cache_write :
    filesGetPipeline ⟨"GET", "/api/files", some ⟨"alice"⟩⟩
        (fun _ => Except.ok none) "B"
      = [GatewayAction.cacheGet (cacheKey ⟨"GET", "/api/files", some ⟨"alice"⟩⟩),
         GatewayAction.proxyToBackend,
         GatewayAction.sendToClient "B"] ∧
    patchedResJson (cacheKey ⟨"GET", "/api/files", some ⟨"alice"⟩⟩) true "B"
      = [GatewayAction.cacheSet (cacheKey ⟨"GET", "/api/files", some ⟨"alice"⟩⟩)
           300 "B" true,
         GatewayAction.sendToClient "B"] := by
  refine ⟨rfl, rfl⟩

/-! ## Health endpoint (server.js lines 200 to 209) -/

/-- Shape of the health response sent at server.js lines 203 to 208, together
with the HTTP status it is sent with (res.json sends 200 by default and no
other status is ever set on this route). -/
structure HealthResponse where
  httpStatus : Nat
  status : String
  service : String
  redis : String
  timestamp : String
deriving DecidableEq, Repr

/-- Embeds the health handler (server.js lines 201 to 209): the redis field
reflects client connectivity, everything else is constant. -/
def healthHandler (redisIsOpen : Bool) (ts : String) : HealthResponse :=
  ⟨200, "OK", "api-gateway",
   if redisIsOpen then "connected" else "disconnected", ts⟩

/-- C10: the health endpoint always responds HTTP 200 with status OK, including
when the shared cache store is disconnected; store connectivity appears only in
the separate redis field, whose value is connected exactly when the client is
open and disconnected otherwise, never as a non-OK status or error response. -/
theorem health_always_ok (b : Bool) (ts : String) :
    (healthHandler b ts).httpStatus = 200 ∧
    (healthHandler b ts).status = "OK" ∧
    (healthHandler false ts).redis = "disconnected" ∧
    (healthHandler true ts).redis = "connected" ∧
    ((healthHandler b ts).redis = "connected" ∨
      (healthHandler b ts).redis = "disconnected") := by
  refine ⟨rfl, rfl, rfl, rfl, ?_⟩
  cases b
  · right; rfl
  · left; rfl

/-! ## Event Publisher (server.js lines 178 to 194 and 211 to 276) -/

/-- Character-list version of a starts-with test, used to build the substring
test below by structural recursion. -/
def charsStartWith : List Char → List Char → Bool
  | [], _ => true
  | _ :: _, [] => false
  | a :: as, b :: bs => a == b && charsStartWith as bs

/-- Character-list substring containment: the pattern occurs at some position. -/
def charsContain (pat : List Char) : List Char → Bool
  | [] => charsStartWith pat []
  | c :: rest => charsStartWith pat (c :: rest) || charsContain pat rest

/-- Embeds the JavaScript String.includes tests on req.path used by the two
proxy response observers (server.js lines 221, 232 and 254). -/
def pathIncludes (path pat : String) : Bool :=
  charsContain pat.data path.data

/-- Request and response fields read by the proxy response observers: method,
path, the body fields the events quote, the resolved identity, the multer file
name, and the route parameter id. -/
structure ProxReq where
  method : String
  path : String
  bodyEmail : Option String
  bodyUsername : Option String
  bodyFilename : Option String
  fileOriginalname : Option String
  user : Option Identity
  paramsId : Option String
deriving DecidableEq, Repr

/-- Domain event as handed to the broker by publishEvent (server.js lines 179
to 194): target topic, partition key (the userId field of the event object,
falling back to the system marker when absent or empty), type, the attributes
the handlers set (absent ones none), and the timestamp appended by
publishEvent. -/
structure GatewayEvent where
  topic : String
  partitionKey : String
  type : String
  email : Option String
  username : Option String
  userId : Option String
  filename : Option String
  fileId : Option String
  timestamp : String
deriving DecidableEq, Repr

/-- Event built at server.js lines 224 to 228 for a successful login. -/
def loginEvent (req : ProxReq) (ts : String) : GatewayEvent :=
  ⟨"user-events", jsOr none "system", "USER_LOGIN_ATTEMPT",
   req.bodyEmail, none, none, none, none, ts⟩

/-- Event built at server.js lines 234 to 239 for a successful registration. -/
def registerEvent (req : ProxReq) (ts : String) : GatewayEvent :=
  ⟨"user-events", jsOr none "system", "USER_REGISTERED",
   req.bodyEmail, req.bodyUsername, none, none, none, ts⟩

/-- Event built at server.js lines 256 to 261 for a successful upload: it
carries the subject of the acting identity and the uploaded file name (the
multer original name, or the body filename field as fallback). -/
def uploadedEvent (req : ProxReq) (ts : String) : GatewayEvent :=
  ⟨"file-events", jsOr (req.user.map Identity.userId) "system", "FILE_UPLOADED",
   none, none, req.user.map Identity.userId,
   jsOrOpt req.fileOriginalname req.bodyFilename, none, ts⟩

/-- Event built at server.js lines 267 to 272 for a successful deletion. -/
def deletedEvent (req : ProxReq) (ts : String) : GatewayEvent :=
  ⟨"file-events", jsOr (req.user.map Identity.userId) "system", "FILE_DELETED",
   none, none, req.user.map Identity.userId, none, req.paramsId, ts⟩

/-- Embeds the auth proxy response observer (server.js lines 219 to 242): a
POST whose path includes the login segment completing with status 200 publishes
the login event on user-events; a POST whose path includes the register segment
completing with status 201 publishes the registration event. -/
def authProxyEvents (req : ProxReq) (status : Nat) (ts : String) : List GatewayEvent :=
  (if req.method = "POST" ∧ pathIncludes req.path "/login" = true ∧ status = 200
    then [loginEvent req ts] else [])
  ++ (if req.method = "POST" ∧ pathIncludes req.path "/register" = true ∧ status = 201
    then [registerEvent req ts] else [])

/-- Embeds the file proxy response observer (server.js lines 252 to 275): a
POST whose path includes the upload segment completing with status 201
publishes the upload event on file-events; a DELETE completing with status
exactly 200 publishes the deletion event. -/
def fileProxyEvents (req : ProxReq) (status : Nat) (ts : String) : List GatewayEvent :=
  (if req.method = "POST" ∧ pathIncludes req.path "/upload" = true ∧ status = 201
    then [uploadedEvent req ts] else [])
  ++ (if req.method = "DELETE" ∧ status = 200
    then [deletedEvent req ts] else [])

/-- C9 counterexample: a DELETE through the file proxy completing with 204, a
success status, publishes no event at all, contradicting the claim that a
DELETE with a success status yields a resource-lifecycle event (the observer
tests the status for equality with 200). -/
theorem delete_success_status_no_event :
    fileProxyEvents ⟨"DELETE", "/api/files/abc", none, none, none, none,
        some ⟨"alice"⟩, some "abc"⟩ 204 "T" = [] ∧
    200 ≤ 204 ∧ 204 < 300 := by
  refine ⟨?_, by omega, by omega⟩
  rfl

/-- C9 (amended): for every proxied request whose method, path and status match
an observer pattern, exactly one typed domain event is published to the
appropriate topic with the specified attributes and a timestamp — POST to a
login path with status 200 yields USER_LOGIN_ATTEMPT on user-events carrying
the submitted email; POST to an upload path with status 201 yields
FILE_UPLOADED on file-events carrying the acting identity subject and the
uploaded filename; DELETE with status exactly 200 (other success statuses such
as 204 publish nothing) yields the FILE_DELETED resource-lifecycle event — and
for a non-matching request no event is published. -/
theorem proxy_event_patterns (req : ProxReq) (status : Nat) (ts : String) :
    (authProxyEvents req status ts).length ≤ 1 ∧
    (fileProxyEvents req status ts).length ≤ 1 ∧
    (req.method = "POST" → pathIncludes req.path "/login" = true → status = 200 →
      authProxyEvents req status ts = [loginEvent req ts] ∧
        (loginEvent req ts).topic = "user-events" ∧
        (loginEvent req ts).type = "USER_LOGIN_ATTEMPT" ∧
        (loginEvent req ts).email = req.bodyEmail ∧
        (loginEvent req ts).timestamp = ts) ∧
    (req.method = "POST" → pathIncludes req.path "/upload" = true → status = 201 →
      fileProxyEvents req status ts = [uploadedEvent req ts] ∧
        (uploadedEvent req ts).topic = "file-events" ∧
        (uploadedEvent req ts).type = "FILE_UPLOADED" ∧
        (uploadedEvent req ts).userId = req.user.map Identity.userId ∧
        (uploadedEvent req ts).filename = jsOrOpt req.fileOriginalname req.bodyFilename ∧
        (uploadedEvent req ts).timestamp = ts) ∧
    (req.method = "DELETE" → status = 200 →
      fileProxyEvents req status ts = [deletedEvent req ts] ∧
        (deletedEvent req ts).topic = "file-events" ∧
        (deletedEvent req ts).type = "FILE_DELETED" ∧
        (deletedEvent req ts).timestamp = ts) ∧
    (¬(req.method = "POST" ∧ pathIncludes req.path "/login" = true ∧ status = 200) →
      ¬(req.method = "POST" ∧ pathIncludes req.path "/register" = true ∧ status = 201) →
      authProxyEvents req status ts = []) ∧
    (¬(req.method = "POST" ∧ pathIncludes req.path "/upload" = true ∧ status = 201) →
      ¬(req.method = "DELETE" ∧ status = 200) →
      fileProxyEvents req status ts = []) := by
  refine ⟨?_, ?_, ?_, ?_, ?_, ?_, ?_⟩
  · unfold authProxyEvents
    split
    · rename_i h1
      have hne : ¬(req.method = "POST" ∧ pathIncludes req.path "/register" = true ∧
          status = 201) := by
        rintro ⟨-, -, h⟩
        have := h1.2.2
        omega
      rw [if_neg hne]
      simp
    · simp only [List.nil_append]
      split <;> simp
  · unfold fileProxyEvents
    split
    · rename_i h1
      rw [if_neg (by rintro ⟨h, -⟩; rw [h1.1] at h; exact absurd h (by decide))]
      simp
    · simp only [List.nil_append]
      split <;> simp
  · intro hm hp hs
    refine ⟨?_, rfl, rfl, rfl, rfl⟩
    unfold authProxyEvents
    rw [if_pos ⟨hm, hp, hs⟩, if_neg (by rintro ⟨-, -, h⟩; omega)]
    simp
  · intro hm hp hs
    refine ⟨?_, rfl, rfl, rfl, rfl, rfl⟩
    unfold fileProxyEvents
    rw [if_pos ⟨hm, hp, hs⟩, if_neg (by rintro ⟨h, -⟩; rw [hm] at h; exact absurd h (by decide))]
    simp
  · intro hm hs
    refine ⟨?_, rfl, rfl, rfl⟩
    unfold fileProxyEvents
    have hne : ¬(req.method = "POST" ∧ pathIncludes req.path "/upload" = true ∧
        status = 201) := by
      rintro ⟨h, -, -⟩
      rw [hm] at h
      exact absurd h (by decide)
    rw [if_neg hne, if_pos ⟨hm, hs⟩]
    simp
  · intro h1 h2
    unfold authProxyEvents
    rw [if_neg h1, if_neg h2]
    rfl
  · intro h1 h2
    unfold fileProxyEvents
    rw [if_neg h1, if_neg h2]
    rfl

theorem proxy_event_patterns_witness :
    fileProxyEvents ⟨"POST", "/api/files/upload", none, none, some "a.txt",
        none, some ⟨"alice"⟩, none⟩ 201 "T"
      = [uploadedEvent ⟨"POST", "/api/files/upload", none, none, some "a.txt",
          none, some ⟨"alice"⟩, none⟩ "T"] ∧
    (uploadedEvent ⟨"POST", "/api/files/upload", none, none, some "a.txt",
        none, some ⟨"alice"⟩, none⟩ "T").userId = some "alice" :=
  ⟨((proxy_event_patterns ⟨"POST", "/api/files/upload", none, none, some "a.txt",
      none, some ⟨"alice"⟩, none⟩ 201 "T").2.2.2.1 rfl (by decide) rfl).1,
   rfl⟩

end Gateway
